import Mathlib

/-!
Shallow embedding of `src/create_presentation.py` (TAGO Leap pitch-deck
generator, v2.0).

The script drives the python-pptx object model.  We embed the parts of that
object model the script touches as plain Lean structures:

* lengths passed to the library in inches are converted to EMU integers by
  `Inches` (python-pptx stores `Emu(int(x * 914400))`; every length in this
  program is nonnegative, so `int` truncation coincides with `floor`);
* font sizes and line widths are kept in points, as the library round-trips
  `Pt(n).pt = n`;
* attributes the script never sets remain `none` / `Fill.inherit`,
  matching python-pptx's "inherit" defaults;
* the two `try/except: pass` cosmetic blocks (vertical anchoring, corner
  radius markup) are modelled by a boolean parameter telling whether the
  wrapped library operation succeeds.  In the source the wrapped region's
  only mutation happens after every fallible access, so a failure leaves the
  shape unchanged; a success sets exactly the one cosmetic attribute.
-/

structure Rgb where
  r : Nat
  g : Nat
  b : Nat
deriving DecidableEq, Repr

/-- Brand colors from the BRAND_KIT section of the script. -/
def BLACK : Rgb := ⟨0, 0, 0⟩

def WHITE : Rgb := ⟨255, 255, 255⟩

def YELLOW : Rgb := ⟨255, 214, 51⟩

def YELLOW_DARK : Rgb := ⟨230, 184, 0⟩

def GRAY_50 : Rgb := ⟨242, 242, 242⟩

def GRAY_100 : Rgb := ⟨217, 217, 217⟩

def GRAY_200 : Rgb := ⟨179, 179, 179⟩

def GRAY_300 : Rgb := ⟨153, 153, 153⟩

def GRAY_400 : Rgb := ⟨102, 102, 102⟩

def GRAY_500 : Rgb := ⟨51, 51, 51⟩

def GRAY_600 : Rgb := ⟨26, 26, 26⟩

def GRAY_700 : Rgb := ⟨13, 13, 13⟩

def FONT_PRIMARY : String := "Inter"

def FONT_ALT : String := "Space Grotesk"

def FONT_MONO : String := "Source Code Pro"

def MARGIN : ℚ := 0.8

def SLIDE_WIDTH : ℚ := 13.333

def SLIDE_HEIGHT : ℚ := 7.5

/-- python-pptx `Inches(x)` = `Emu(int(x * 914400))`; all lengths used by the
script are nonnegative, so truncation equals floor. -/
def Inches (x : ℚ) : Int := Rat.floor (x * 914400)

inductive Align where
  | left
  | center
deriving DecidableEq, Repr

inductive Anchor where
  | top
  | middle
deriving DecidableEq, Repr

inductive ShapeType where
  | textbox
  | roundedRectangle
  | rectangle
  | oval
deriving DecidableEq, Repr

/-- A fill format: untouched (library default), solid RGB, or `background()`
(no fill). -/
inductive Fill where
  | inherit
  | solid (color : Rgb)
  | background
deriving DecidableEq, Repr

structure Font where
  size : Option Nat
  color : Option Rgb
  name : Option String
  bold : Option Bool
  italic : Option Bool
deriving DecidableEq, Repr

def Font.default : Font := ⟨none, none, none, none, none⟩

structure TextRun where
  text : String
  font : Font
deriving DecidableEq, Repr

structure Paragraph where
  runs : List TextRun
  font : Font
  alignment : Option Align
  spaceBefore : Option Nat
  spaceAfter : Option Nat
deriving DecidableEq, Repr

def Paragraph.empty : Paragraph := ⟨[], Font.default, none, none, none⟩

/-- The visible text of a paragraph: its run texts concatenated left to
right. -/
def Paragraph.text (p : Paragraph) : String :=
  p.runs.foldl (fun a r => a ++ r.text) ""

structure TextFrame where
  paragraphs : List Paragraph
  wordWrap : Option Bool
  autoSize : Option Bool
  anchor : Option Anchor
deriving DecidableEq, Repr

/-- A fresh text frame holds one empty paragraph. -/
def TextFrame.default : TextFrame := ⟨[Paragraph.empty], none, none, none⟩

structure LineFmt where
  fill : Fill
  width : Option Nat
deriving DecidableEq, Repr

def LineFmt.default : LineFmt := ⟨Fill.inherit, none⟩

structure Shape where
  shapeType : ShapeType
  left : Int
  top : Int
  width : Int
  height : Int
  fill : Fill
  line : LineFmt
  textFrame : TextFrame
  cornerAdj : Option Nat
deriving DecidableEq, Repr

structure Slide where
  background : Fill
  shapes : List Shape
deriving DecidableEq, Repr

/-- A freshly added blank-layout slide. -/
def Slide.blank : Slide := ⟨Fill.inherit, []⟩

structure Presentation where
  slideWidth : Int
  slideHeight : Int
  slides : List Slide
deriving DecidableEq, Repr

/-- `set_slide_background(slide, color=BLACK)`: `fill.solid()` then
`fill.fore_color.rgb = color`. -/
def set_slide_background (slide : Slide) (color : Rgb) : Slide :=
  { slide with background := Fill.solid color }

/-- `add_text_box` (defaults in the source: `font_size=18`,
`font_color=WHITE`, `font_name=FONT_PRIMARY`, `bold=False`, `italic=False`,
`align=PP_ALIGN.LEFT`, `vertical_anchor=MSO_ANCHOR.TOP`); `anchor_ok` tells
whether the `try: tf.anchor = vertical_anchor` assignment succeeds. -/
def add_text_box (slide : Slide) (left top width height : ℚ) (text : String)
    (font_size : Nat) (font_color : Rgb) (font_name : String)
    (bold : Bool) (italic : Bool) (align : Align)
    (vertical_anchor : Anchor) (anchor_ok : Bool) : Slide × Shape :=
  let p : Paragraph :=
    { runs := [⟨text, Font.default⟩],
      font := ⟨some font_size, some font_color, some font_name, some bold,
               some italic⟩,
      alignment := some align, spaceBefore := none, spaceAfter := none }
  let sh : Shape :=
    { shapeType := ShapeType.textbox,
      left := Inches left, top := Inches top,
      width := Inches width, height := Inches height,
      fill := Fill.inherit, line := LineFmt.default,
      textFrame :=
        { paragraphs := [p], wordWrap := some true, autoSize := some false,
          anchor := if anchor_ok then some vertical_anchor else none },
      cornerAdj := none }
  ({ slide with shapes := slide.shapes ++ [sh] }, sh)

/-- One run of `add_styled_heading`: size/color/`FONT_PRIMARY`/`bold=False`
always set; `italic` set to `True` only for the accent run. -/
def headingRun (text : String) (font_size : Nat) (color : Rgb)
    (italic : Option Bool) : TextRun :=
  ⟨text, ⟨some font_size, some color, some FONT_PRIMARY, some false, italic⟩⟩

/-- `add_styled_heading` (defaults: `font_size=48`, `align=PP_ALIGN.LEFT`).
A run is added for each of pre/accent/suffix that is a non-empty string. -/
def add_styled_heading (slide : Slide) (left top width height : ℚ)
    (pre accent suffix : String) (font_size : Nat) (align : Align) :
    Slide × Shape :=
  let runs :=
    (if pre ≠ "" then [headingRun pre font_size WHITE none] else [])
      ++ (if accent ≠ "" then [headingRun accent font_size YELLOW (some true)]
          else [])
      ++ (if suffix ≠ "" then [headingRun suffix font_size WHITE none] else [])
  let p : Paragraph :=
    { Paragraph.empty with
      alignment := some align,
      runs := runs }
  let sh : Shape :=
    { shapeType := ShapeType.textbox,
      left := Inches left, top := Inches top,
      width := Inches width, height := Inches height,
      fill := Fill.inherit, line := LineFmt.default,
      textFrame := { paragraphs := [p], wordWrap := some true,
                     autoSize := none, anchor := none },
      cornerAdj := none }
  ({ slide with shapes := slide.shapes ++ [sh] }, sh)

/-- One paragraph of `add_bullet_list`: marker glyph prefix, shared font and
spacing (`space_before=Pt(12)`, `space_after=Pt(6)`). -/
def bulletParagraph (item : String) (font_size : Nat) (font_color : Rgb) :
    Paragraph :=
  { runs := [⟨"→  " ++ item, Font.default⟩],
    font := ⟨some font_size, some font_color, some FONT_PRIMARY, none, none⟩,
    alignment := none, spaceBefore := some 12, spaceAfter := some 6 }

/-- `add_bullet_list` (defaults: `font_size=18`, `font_color=GRAY_200`).
The source loop reuses `tf.paragraphs[0]` for the first item and calls
`add_paragraph()` for the rest, so the frame ends with one paragraph per
item (the initial empty paragraph survives only when `items` is empty). -/
def add_bullet_list (slide : Slide) (left top width height : ℚ)
    (items : List String) (font_size : Nat) (font_color : Rgb) :
    Slide × Shape :=
  let paras : List Paragraph :=
    match items with
    | [] => [Paragraph.empty]
    | _ => items.map (fun it => bulletParagraph it font_size font_color)
  let sh : Shape :=
    { shapeType := ShapeType.textbox,
      left := Inches left, top := Inches top,
      width := Inches width, height := Inches height,
      fill := Fill.inherit, line := LineFmt.default,
      textFrame := { paragraphs := paras, wordWrap := some true,
                     autoSize := none, anchor := none },
      cornerAdj := none }
  ({ slide with shapes := slide.shapes ++ [sh] }, sh)

/-- `add_card` (defaults: `has_border=True`, `border_color=GRAY_600`);
`corner_ok` tells whether the `try`-wrapped corner-radius XML manipulation
succeeds (on success it installs `<a:gd name="adj" fmla="val 15000"/>`). -/
def add_card (slide : Slide) (left top width height : ℚ) (has_border : Bool)
    (border_color : Rgb) (corner_ok : Bool) : Slide × Shape :=
  let sh0 : Shape :=
    { shapeType := ShapeType.roundedRectangle,
      left := Inches left, top := Inches top,
      width := Inches width, height := Inches height,
      fill := Fill.solid GRAY_700,
      line := if has_border then ⟨Fill.solid border_color, some 1⟩
              else ⟨Fill.background, none⟩,
      textFrame := TextFrame.default, cornerAdj := none }
  let sh := if corner_ok then { sh0 with cornerAdj := some 15000 } else sh0
  ({ slide with shapes := slide.shapes ++ [sh] }, sh)

/-- `add_badge` (defaults: `bg_color=YELLOW`, `text_color=BLACK`,
`width=1.4`); the shape is `width × 0.4` inches with no outline, caption at
12pt bold `FONT_PRIMARY`, centered. -/
def add_badge (slide : Slide) (left top : ℚ) (text : String)
    (bg_color : Rgb) (text_color : Rgb) (width : ℚ) (anchor_ok : Bool) :
    Slide × Shape :=
  let p : Paragraph :=
    { runs := [⟨text, Font.default⟩],
      font := ⟨some 12, some text_color, some FONT_PRIMARY, some true, none⟩,
      alignment := some Align.center, spaceBefore := none, spaceAfter := none }
  let sh : Shape :=
    { shapeType := ShapeType.roundedRectangle,
      left := Inches left, top := Inches top,
      width := Inches width, height := Inches 0.4,
      fill := Fill.solid bg_color, line := ⟨Fill.background, none⟩,
      textFrame := { paragraphs := [p], wordWrap := some false,
                     autoSize := none,
                     anchor := if anchor_ok then some Anchor.middle else none },
      cornerAdj := none }
  ({ slide with shapes := slide.shapes ++ [sh] }, sh)

/-- `add_stat_box`: a yellow-bordered card plus two stacked centered text
boxes (number at 36pt YELLOW, label at 14pt GRAY_300); returns the card. -/
def add_stat_box (slide : Slide) (left top width height : ℚ)
    (number label : String) : Slide × Shape :=
  let rc := add_card slide left top width height true YELLOW true
  let rn := add_text_box rc.1 left (top + 0.2) width 0.6 number
    36 YELLOW FONT_PRIMARY false false Align.center Anchor.top true
  let rl := add_text_box rn.1 left (top + 0.7) width 0.4 label
    14 GRAY_300 FONT_PRIMARY false false Align.center Anchor.top true
  (rl.1, rc.2)

/-- `add_flow_arrow`: a 28pt yellow "→" text box; returns `None`. -/
def add_flow_arrow (slide : Slide) (left top : ℚ) : Slide :=
  (add_text_box slide left top 0.6 0.5 "→" 28 YELLOW FONT_PRIMARY
    false false Align.center Anchor.top true).1

/-- `add_flow_box` (default `is_highlight=False`): fixed 0.6" height;
highlight boxes are yellow-filled with black bold text and no outline,
others are GRAY_700-filled with white text and a 1pt yellow outline. -/
def add_flow_box (slide : Slide) (left top width : ℚ) (text : String)
    (is_highlight : Bool) (anchor_ok : Bool) : Slide × Shape :=
  let bg_color := if is_highlight then YELLOW else GRAY_700
  let text_color := if is_highlight then BLACK else WHITE
  let border_color : Option Rgb := if !is_highlight then some YELLOW else none
  let line : LineFmt :=
    match border_color, is_highlight with
    | some c, false => ⟨Fill.solid c, some 1⟩
    | _, _ => ⟨Fill.background, none⟩
  let p : Paragraph :=
    { runs := [⟨text, Font.default⟩],
      font := ⟨some 13, some text_color, some FONT_PRIMARY,
               some is_highlight, none⟩,
      alignment := some Align.center, spaceBefore := none, spaceAfter := none }
  let sh : Shape :=
    { shapeType := ShapeType.roundedRectangle,
      left := Inches left, top := Inches top,
      width := Inches width, height := Inches 0.6,
      fill := Fill.solid bg_color, line := line,
      textFrame := { paragraphs := [p], wordWrap := none, autoSize := none,
                     anchor := if anchor_ok then some Anchor.middle else none },
      cornerAdj := none }
  ({ slide with shapes := slide.shapes ++ [sh] }, sh)

/-- The inline accent-line / marker rectangles of slides 1, 11 and 12:
`add_shape(MSO_SHAPE.RECTANGLE, ...)`, solid YELLOW fill, no outline. -/
def accentRect (left top width height : ℚ) : Shape :=
  { shapeType := ShapeType.rectangle,
    left := Inches left, top := Inches top,
    width := Inches width, height := Inches height,
    fill := Fill.solid YELLOW, line := ⟨Fill.background, none⟩,
    textFrame := TextFrame.default, cornerAdj := none }

/-- Slide 1 (Title): accent lines, "TAGO" / "LEAP" titles, tagline,
subtitle, three bounty badges at `badge_y = 5.8`, footer. -/
def slide1 : Slide :=
  let s := set_slide_background Slide.blank BLACK
  let s := { s with shapes :=
    s.shapes ++ [accentRect MARGIN 0.4 (SLIDE_WIDTH - 2 * MARGIN) 0.03] }
  let s := (add_text_box s MARGIN 1.8 (SLIDE_WIDTH - 2 * MARGIN) 1.2 "TAGO"
    120 WHITE FONT_PRIMARY false false Align.center Anchor.top true).1
  let s := (add_text_box s MARGIN 3.2 (SLIDE_WIDTH - 2 * MARGIN) 0.9 "LEAP"
    80 YELLOW FONT_PRIMARY false true Align.center Anchor.top true).1
  let s := (add_text_box s MARGIN 4.4 (SLIDE_WIDTH - 2 * MARGIN) 0.5
    "Trade ideas, not tokens."
    24 WHITE FONT_PRIMARY false true Align.center Anchor.top true).1
  let s := (add_text_box s MARGIN 5.0 (SLIDE_WIDTH - 2 * MARGIN) 0.4
    "AI-Powered Narrative Trading on Hyperliquid"
    16 GRAY_300 FONT_PRIMARY false false Align.center Anchor.top true).1
  let s := (add_badge s 4.8 5.8 "PEAR" YELLOW BLACK 1.4 true).1
  let s := (add_badge s 6.4 5.8 "LI.FI" YELLOW BLACK 1.4 true).1
  let s := (add_badge s 8.0 5.8 "SALT" YELLOW BLACK 1.4 true).1
  let s := (add_text_box s MARGIN 6.8 (SLIDE_WIDTH - 2 * MARGIN) 0.3
    "Hyperstack Hackathon 2025"
    12 GRAY_400 FONT_PRIMARY false false Align.center Anchor.top true).1
  let s := { s with shapes :=
    s.shapes ++ [accentRect MARGIN 7.1 (SLIDE_WIDTH - 2 * MARGIN) 0.03] }
  s

def slide2Stats : List (String × String) :=
  [("$50B+", "Daily Volume"),
   ("150K+", "Active Traders"),
   ("5+ Steps", "To Start Trading"),
   ("0", "Narrative Trading Tools")]

def slide2Problems : List String :=
  ["Bridging from other chains requires multiple transactions",
   "Trading interfaces show tickers, not market narratives",
   "Risk management is entirely manual",
   "Automation tools require giving up custody"]

/-- Slide 2 (The Opportunity): heading, intro, four stat boxes at
`x_start = 0.8` stepped by `3.1`, pain-point header, bullet list. -/
def slide2 : Slide :=
  let s := set_slide_background Slide.blank BLACK
  let s := (add_styled_heading s MARGIN 0.6 10 0.8
    "The " "Opportunity" "" 48 Align.left).1
  let s := (add_text_box s MARGIN 1.4 8 0.5
    "Hyperliquid is the fastest-growing perps DEX. But onboarding and trading are still too complex."
    18 GRAY_200 FONT_PRIMARY false true Align.left Anchor.top true).1
  let s := slide2Stats.enum.foldl (fun acc it =>
    (add_stat_box acc (0.8 + (it.1 : ℚ) * 3.1) 2.5 2.8 1.2 it.2.1 it.2.2).1) s
  let s := (add_text_box s MARGIN 4.2 6 0.5 "Current Pain Points"
    20 YELLOW FONT_PRIMARY false false Align.left Anchor.top true).1
  let s := (add_bullet_list s MARGIN 4.8 11 2.5 slide2Problems 17 GRAY_200).1
  s

def slide3Cards : List (String × String × String) :=
  [("Complex Onboarding",
    "Users need 5+ steps to bridge assets and start trading on Hyperliquid",
    "LI.FI"),
   ("Token-Centric Trading",
    "Traders pick tickers, not theses. No way to express \x27AI will beat ETH\x27",
    "PEAR"),
   ("No Automated Safety",
    "Risk management is manual. Automation means giving up custody",
    "SALT")]

/-- Slide 3 (The Problem): heading, three problem cards
(`card_width = 3.7`, `card_start = 0.8`, `card_gap = 0.3`), bottom
insight. -/
def slide3 : Slide :=
  let s := set_slide_background Slide.blank BLACK
  let s := (add_styled_heading s MARGIN 0.6 10 0.8
    "The " "Problem" "" 48 Align.left).1
  let s := slide3Cards.enum.foldl (fun acc it =>
    let x := 0.8 + (it.1 : ℚ) * (3.7 + 0.3)
    let t := (add_card acc x 1.8 3.7 4.2 true GRAY_500 true).1
    let t := (add_badge t (x + 0.2) 2.0 it.2.2.2 YELLOW BLACK 1.4 true).1
    let t := (add_text_box t (x + 0.2) 2.6 (3.7 - 0.4) 0.8 it.2.1
      22 WHITE FONT_PRIMARY false false Align.left Anchor.top true).1
    let t := (add_text_box t (x + 0.2) 3.5 (3.7 - 0.4) 2.2 it.2.2.1
      15 GRAY_300 FONT_PRIMARY false false Align.left Anchor.top true).1
    t) s
  let s := (add_text_box s MARGIN 6.4 (SLIDE_WIDTH - 2 * MARGIN) 0.5
    "Traders need a simpler way to onboard, express market views, and automate safely."
    16 GRAY_400 FONT_PRIMARY false true Align.center Anchor.top true).1
  s

def slide4Pillars : List (String × String × List String) :=
  [("PEAR", "Trade Ideas",
    ["AI-powered narrative trading", "Pair & basket trades",
     "Bet-slip simplicity"]),
   ("LI.FI", "One-Click Onboard",
    ["Bridge from any chain", "Auto-deposit to account",
     "Full route transparency"]),
   ("SALT", "Robo Managers",
    ["Policy-controlled accounts", "Automated strategies",
     "100% non-custodial"])]

/-- Slide 4 (The Solution): heading, intro, three pillar cards
(`pillar_width = 3.5`, `pillar_start = 1.2`, `pillar_gap = 0.6`) each with
badge, title and feature lines, then the tagline. -/
def slide4 : Slide :=
  let s := set_slide_background Slide.blank BLACK
  let s := (add_styled_heading s MARGIN 0.5 10 0.8
    "TAGO " "Leap" "" 48 Align.left).1
  let s := (add_text_box s MARGIN 1.2 10 0.4
    "One platform. Three powerful integrations."
    18 GRAY_300 FONT_PRIMARY false true Align.left Anchor.top true).1
  let s := slide4Pillars.enum.foldl (fun acc it =>
    let x := 1.2 + (it.1 : ℚ) * (3.5 + 0.6)
    let t := (add_card acc x 2.0 3.5 4.0 true YELLOW true).1
    let t := (add_badge t (x + (3.5 - 1.4) / 2) 2.2 it.2.1 YELLOW BLACK
      1.4 true).1
    let t := (add_text_box t x 2.8 3.5 0.5 it.2.2.1
      24 WHITE FONT_PRIMARY false false Align.center Anchor.top true).1
    let t := it.2.2.2.enum.foldl (fun acc2 jt =>
      (add_text_box acc2 (x + 0.3) (3.5 + (jt.1 : ℚ) * 0.6) (3.5 - 0.6) 0.5
        ("→ " ++ jt.2)
        14 GRAY_200 FONT_PRIMARY false false Align.left Anchor.top true).1) t
    t) s
  let s := (add_text_box s MARGIN 6.4 (SLIDE_WIDTH - 2 * MARGIN) 0.5
    "\x22Trade ideas, not just single tokens\x22 — built for Hyperliquid"
    14 YELLOW FONT_PRIMARY false true Align.center Anchor.top true).1
  s

def slide5Steps : List String :=
  ["Enter your market thesis in plain English",
   "AI (Claude) generates trade suggestions",
   "Select pair or basket trade structure",
   "Adjust stake, leverage, direction",
   "Execute via Pear Protocol API"]

def slide5Features : List String :=
  ["Narrative-first UI (themes, not tickers)",
   "Pair trades: Long A / Short B",
   "Basket trades: Long group vs benchmark",
   "Bet-slip UX (stake → direction → risk)",
   "Full trade logging with metadata"]

/-- Slide 5 (PEAR — Narrative Trading): badge, heading, quote, numbered
steps, arrow features, and the yellow-bordered example card. -/
def slide5 : Slide :=
  let s := set_slide_background Slide.blank BLACK
  let s := (add_badge s MARGIN 0.5 "PEAR" YELLOW BLACK 1.4 true).1
  let s := (add_styled_heading s (MARGIN + 1.6) 0.4 10 0.7
    "" "Narrative" " Trading Engine" 40 Align.left).1
  let s := (add_text_box s MARGIN 1.1 10 0.4
    "\x22Build tools that let people trade ideas, not just single tokens\x22"
    14 GRAY_400 FONT_PRIMARY false true Align.left Anchor.top true).1
  let s := (add_text_box s MARGIN 1.7 5.5 0.4 "How It Works"
    18 YELLOW FONT_PRIMARY false false Align.left Anchor.top true).1
  let s := slide5Steps.enum.foldl (fun acc it =>
    (add_text_box acc (MARGIN + 0.4) (2.2 + (it.1 : ℚ) * 0.55) 5.5 0.5
      (toString (it.1 + 1) ++ ".  " ++ it.2)
      14 GRAY_200 FONT_PRIMARY false false Align.left Anchor.top true).1) s
  let s := (add_text_box s 7 1.7 5.5 0.4 "Key Features"
    18 YELLOW FONT_PRIMARY false false Align.left Anchor.top true).1
  let s := slide5Features.enum.foldl (fun acc it =>
    (add_text_box acc 7.4 (2.2 + (it.1 : ℚ) * 0.55) 5 0.5
      ("→  " ++ it.2)
      14 GRAY_200 FONT_PRIMARY false false Align.left Anchor.top true).1) s
  let s := (add_card s MARGIN 5.0 (SLIDE_WIDTH - 2 * MARGIN) 1.8
    true YELLOW true).1
  let s := (add_text_box s (MARGIN + 0.3) 5.2 4 0.3 "Example Thesis:"
    12 YELLOW FONT_PRIMARY false false Align.left Anchor.top true).1
  let s := (add_text_box s (MARGIN + 0.3) 5.5 11 0.5
    "\x22I believe AI tokens will outperform Ethereum over the next month\x22"
    18 WHITE FONT_PRIMARY false true Align.left Anchor.top true).1
  let s := (add_text_box s (MARGIN + 0.3) 6.1 11 0.4
    "→  AI suggests: Long RENDER, TAO, FET basket  /  Short ETH benchmark"
    15 GRAY_300 FONT_PRIMARY false false Align.left Anchor.top true).1
  s

def slide6FlowItems : List (String × Bool) :=
  [("Any Chain", false), ("LI.FI Router", false), ("HyperEVM", false),
   ("Trading Account", true)]

def slide6UxItems : List String :=
  ["Select origin chain + token", "See full route summary & ETA",
   "Track progress in real-time", "Automatic deposit on arrival"]

def slide6TechItems : List String :=
  ["Dedicated lifi-service backend", "GET /onboard/options",
   "POST /onboard/quote & /track", "Reusable deposit component"]

/-- Slide 6 (LI.FI — Onboarding): badge, heading, quote, the flow diagram
(`flow_y = 2.0`, boxes of width 2.6 at `x_pos` starting 0.6 stepped by 3.2,
arrows between), two columns, and a highlight stat box. -/
def slide6 : Slide :=
  let s := set_slide_background Slide.blank BLACK
  let s := (add_badge s MARGIN 0.5 "LI.FI" YELLOW BLACK 1.4 true).1
  let s := (add_styled_heading s (MARGIN + 1.6) 0.4 10 0.7
    "" "One-Click" " Onboarding" 40 Align.left).1
  let s := (add_text_box s MARGIN 1.1 10 0.4
    "\x22Bridge users from any chain into HyperEVM using LI.FI routing\x22"
    14 GRAY_400 FONT_PRIMARY false true Align.left Anchor.top true).1
  let s := (slide6FlowItems.enum.foldl (fun acc it =>
    let t := (add_flow_box acc.1 acc.2 2.0 2.6 it.2.1 it.2.2 true).1
    let t := if it.1 < slide6FlowItems.length - 1 then
        add_flow_arrow t (acc.2 + 2.6) (2.0 + 0.05)
      else t
    (t, acc.2 + 3.2)) (s, (0.6 : ℚ))).1
  let s := (add_text_box s MARGIN 3.0 5.5 0.4 "User Experience"
    18 YELLOW FONT_PRIMARY false false Align.left Anchor.top true).1
  let s := slide6UxItems.enum.foldl (fun acc it =>
    (add_text_box acc (MARGIN + 0.4) (3.5 + (it.1 : ℚ) * 0.55) 5 0.5
      ("→  " ++ it.2)
      14 GRAY_200 FONT_PRIMARY false false Align.left Anchor.top true).1) s
  let s := (add_text_box s 7 3.0 5.5 0.4 "Technical Implementation"
    18 YELLOW FONT_PRIMARY false false Align.left Anchor.top true).1
  let s := slide6TechItems.enum.foldl (fun acc it =>
    (add_text_box acc 7.4 (3.5 + (it.1 : ℚ) * 0.55) 5 0.5
      ("→  " ++ it.2)
      14 GRAY_200 FONT_PRIMARY false false Align.left Anchor.top true).1) s
  let s := (add_stat_box s 4.5 5.7 4.3 1.2 "1 Click"
    "From Any Chain to Trading").1
  s

def slide7Policies : List String :=
  ["Max Leverage: 1-10x limit", "Daily Notional: $100 - $1M cap",
   "Max Drawdown: 1-50% protection", "Allowed Pairs: Whitelist only"]

def slide7Strategies : List String :=
  ["Mean Reversion: AI vs ETH", "SOL Ecosystem vs BTC",
   "DeFi Momentum plays", "60-second strategy loop"]

/-- Slide 7 (SALT — Robo Managers): badge, heading, quote, two columns, and
the non-custodial callout card. -/
def slide7 : Slide :=
  let s := set_slide_background Slide.blank BLACK
  let s := (add_badge s MARGIN 0.5 "SALT" YELLOW BLACK 1.4 true).1
  let s := (add_styled_heading s (MARGIN + 1.6) 0.4 10 0.7
    "" "Policy-Controlled" " Robo Managers" 40 Align.left).1
  let s := (add_text_box s MARGIN 1.1 10 0.4
    "\x22Automate and manage capital without ever taking custody\x22"
    14 GRAY_400 FONT_PRIMARY false true Align.left Anchor.top true).1
  let s := (add_text_box s MARGIN 1.7 5.5 0.4 "Policy Controls"
    18 YELLOW FONT_PRIMARY false false Align.left Anchor.top true).1
  let s := slide7Policies.enum.foldl (fun acc it =>
    (add_text_box acc (MARGIN + 0.4) (2.2 + (it.1 : ℚ) * 0.55) 5 0.5
      ("→  " ++ it.2)
      14 GRAY_200 FONT_PRIMARY false false Align.left Anchor.top true).1) s
  let s := (add_text_box s 7 1.7 5.5 0.4 "Automated Strategies"
    18 YELLOW FONT_PRIMARY false false Align.left Anchor.top true).1
  let s := slide7Strategies.enum.foldl (fun acc it =>
    (add_text_box acc 7.4 (2.2 + (it.1 : ℚ) * 0.55) 5 0.5
      ("→  " ++ it.2)
      14 GRAY_200 FONT_PRIMARY false false Align.left Anchor.top true).1) s
  let s := (add_card s MARGIN 4.6 (SLIDE_WIDTH - 2 * MARGIN) 2.2
    true YELLOW true).1
  let s := (add_text_box s (MARGIN + 0.4) 4.9 11 0.5
    "NON-CUSTODIAL BY DESIGN"
    24 YELLOW FONT_PRIMARY false false Align.left Anchor.top true).1
  let s := (add_text_box s (MARGIN + 0.4) 5.5 11 1
    "Your funds stay in YOUR policy-controlled account. The robo manager only instructs trades under strict rules — it never holds your assets. Full audit trail in strategy_runs."
    16 GRAY_200 FONT_PRIMARY false false Align.left Anchor.top true).1
  s

def slide8Services : List (String × String) :=
  [("Frontend", "Next.js 14\nRainbowKit\nTailwind CSS"),
   ("pear-service", "Claude AI\nPear Protocol\nTrade Execution"),
   ("lifi-service", "LI.FI SDK\nRoute Optimization\nDeposit Flow"),
   ("salt-service", "Salt SDK\nPolicy Engine\nStrategy Loop")]

def slide8Externals : List String :=
  ["Hyperliquid", "Pear Protocol", "LI.FI", "Salt"]

/-- Slide 8 (Architecture): heading, four service cards
(`box_width = 2.6`, `box_start = 0.9`, `box_gap = 0.5`), external
integration badges (`ext_start = 1.5`, `ext_gap = 2.8`, width 2.2), tech
stack. -/
def slide8 : Slide :=
  let s := set_slide_background Slide.blank BLACK
  let s := (add_styled_heading s MARGIN 0.5 10 0.7
    "" "Architecture" "" 44 Align.left).1
  let s := slide8Services.enum.foldl (fun acc it =>
    let x := 0.9 + (it.1 : ℚ) * (2.6 + 0.5)
    let t := (add_card acc x 1.5 2.6 2.2 true YELLOW true).1
    let t := (add_text_box t x 1.7 2.6 0.4 it.2.1
      14 YELLOW FONT_PRIMARY false false Align.center Anchor.top true).1
    let t := (add_text_box t (x + 0.2) 2.2 (2.6 - 0.4) 1.3 it.2.2
      11 GRAY_200 FONT_PRIMARY false false Align.center Anchor.top true).1
    t) s
  let s := (add_text_box s MARGIN 4.0 10 0.4 "External Integrations"
    16 GRAY_400 FONT_PRIMARY false false Align.left Anchor.top true).1
  let s := slide8Externals.enum.foldl (fun acc it =>
    (add_badge acc (1.5 + (it.1 : ℚ) * 2.8) 4.5 it.2 YELLOW BLACK 2.2
      true).1) s
  let s := (add_text_box s MARGIN 5.4 10 0.3 "Tech Stack"
    14 GRAY_400 FONT_PRIMARY false false Align.left Anchor.top true).1
  let s := (add_text_box s MARGIN 5.8 (SLIDE_WIDTH - 2 * MARGIN) 0.4
    "TypeScript  •  Turborepo  •  Fastify  •  Supabase  •  Anthropic Claude  •  Viem/Wagmi  •  pnpm"
    14 GRAY_200 FONT_PRIMARY false false Align.center Anchor.top true).1
  s

def slide9DemoSteps : List (String × String × String × String) :=
  [("1", "Onboard", "Bridge USDC via LI.FI", "LI.FI"),
   ("2", "Connect", "Wallet auto-deposits", "LI.FI"),
   ("3", "Thesis", "Enter market view", "PEAR"),
   ("4", "Trade", "AI suggests pair trade", "PEAR"),
   ("5", "Execute", "Trade via Pear API", "PEAR"),
   ("6", "Automate", "Enable robo manager", "SALT")]

/-- The number circle of the slide-9 demo loop: an `MSO_SHAPE.OVAL` at
`(0.8, y)` of size `0.45 × 0.45`, yellow fill, no outline, anchored middle
(via the `try` block), 16pt bold black centered caption (font name never
set). -/
def demoCircle (top : ℚ) (num : String) : Shape :=
  { shapeType := ShapeType.oval,
    left := Inches 0.8, top := Inches top,
    width := Inches 0.45, height := Inches 0.45,
    fill := Fill.solid YELLOW, line := ⟨Fill.background, none⟩,
    textFrame :=
      { paragraphs :=
          [{ runs := [⟨num, Font.default⟩],
             font := ⟨some 16, some BLACK, none, some true, none⟩,
             alignment := some Align.center, spaceBefore := none,
             spaceAfter := none }],
        wordWrap := none, autoSize := none, anchor := some Anchor.middle },
    cornerAdj := none }

/-- Slide 9 (Demo Flow): heading, subtitle, six timeline rows
(`y_pos = 1.8`, `row_height = 0.85`) of circle / title / description /
badge. -/
def slide9 : Slide :=
  let s := set_slide_background Slide.blank BLACK
  let s := (add_styled_heading s MARGIN 0.5 10 0.7
    "" "Demo" " Flow" 44 Align.left).1
  let s := (add_text_box s MARGIN 1.1 10 0.4
    "End-to-end:  Onboard  →  Trade  →  Automate"
    16 YELLOW FONT_PRIMARY false true Align.left Anchor.top true).1
  let s := slide9DemoSteps.enum.foldl (fun acc it =>
    let y := 1.8 + (it.1 : ℚ) * 0.85
    let t := { acc with shapes := acc.shapes ++ [demoCircle y it.2.1] }
    let t := (add_text_box t 1.5 (y - 0.05) 2 0.45 it.2.2.1
      18 YELLOW FONT_PRIMARY false false Align.left Anchor.top true).1
    let t := (add_text_box t 3.5 y 7 0.45 it.2.2.2.1
      15 GRAY_200 FONT_PRIMARY false false Align.left Anchor.top true).1
    let t := (add_badge t 11 (y + 0.02) it.2.2.2.2 YELLOW BLACK 1.4 true).1
    t) s
  s

def slide10Checklists : List (String × List String) :=
  [("PEAR",
    ["✓ Trade UI starts from ideas/themes", "✓ Pair + basket trades wired live",
     "✓ Narrative metadata logged", "✓ Bet-slip UX design",
     "✓ Automation routes to service"]),
   ("LI.FI",
    ["✓ lifi-service endpoints exposed", "✓ Composable deposit component",
     "✓ Quote, ETA, route shown", "✓ Progress & error states",
     "✓ Mobile responsive"]),
   ("SALT",
    ["✓ Account/policy endpoints", "✓ Strategy loop runs periodically",
     "✓ Policy limits enforced", "✓ Frontend shows all state",
     "✓ Non-custodial design"])]

/-- Slide 10 (Bounty Checklist): heading, subtitle, three checklist columns
(`col_width = 3.8`, `col_start = 0.8`, `col_gap = 0.3`), summary lines. -/
def slide10 : Slide :=
  let s := set_slide_background Slide.blank BLACK
  let s := (add_styled_heading s MARGIN 0.5 10 0.7
    "Bounty " "Requirements" "" 44 Align.left).1
  let s := (add_text_box s MARGIN 1.1 10 0.4
    "All acceptance criteria satisfied"
    16 YELLOW FONT_PRIMARY false true Align.left Anchor.top true).1
  let s := slide10Checklists.enum.foldl (fun acc it =>
    let x := 0.8 + (it.1 : ℚ) * (3.8 + 0.3)
    let t := (add_badge acc x 1.7 it.2.1 YELLOW BLACK 1.4 true).1
    let t := it.2.2.enum.foldl (fun acc2 jt =>
      (add_text_box acc2 x (2.3 + (jt.1 : ℚ) * 0.55) 3.8 0.5 jt.2
        13 GRAY_200 FONT_PRIMARY false false Align.left Anchor.top true).1) t
    t) s
  let s := (add_text_box s MARGIN 5.5 (SLIDE_WIDTH - 2 * MARGIN) 0.6
    "TAGO Leap delivers on ALL THREE bounties"
    22 WHITE FONT_PRIMARY false false Align.center Anchor.top true).1
  let s := (add_text_box s MARGIN 6.1 (SLIDE_WIDTH - 2 * MARGIN) 0.4
    "with a cohesive, production-ready platform"
    16 GRAY_300 FONT_PRIMARY false false Align.center Anchor.top true).1
  s

def slide11Diffs : List (String × String) :=
  [("Innovation", "First narrative trading platform on Hyperliquid"),
   ("Integration", "Seamlessly combines PEAR + LI.FI + SALT"),
   ("User Experience",
    "Bet-slip simplicity, not trading terminal complexity"),
   ("Safety", "Non-custodial robo managers with policy enforcement"),
   ("Accessibility", "One-click onboarding from any blockchain"),
   ("Production Ready", "Clean architecture, comprehensive documentation")]

/-- Slide 11 (Why TAGO Leap): heading, six differentiator rows (`y` starts
at 1.5 and advances by 0.8) of yellow marker line, title and description,
then a closing quote. -/
def slide11 : Slide :=
  let s := set_slide_background Slide.blank BLACK
  let s := (add_styled_heading s MARGIN 0.5 10 0.7
    "Why " "TAGO Leap" "" 44 Align.left).1
  let s := slide11Diffs.enum.foldl (fun acc it =>
    let y := 1.5 + (it.1 : ℚ) * 0.8
    let t := { acc with shapes :=
      acc.shapes ++ [accentRect MARGIN (y + 0.15) 0.08 0.4] }
    let t := (add_text_box t (MARGIN + 0.3) y 3.5 0.5 it.2.1
      20 YELLOW FONT_PRIMARY false false Align.left Anchor.top true).1
    let t := (add_text_box t 4.5 (y + 0.05) 8 0.5 it.2.2
      17 GRAY_200 FONT_PRIMARY false false Align.left Anchor.top true).1
    t) s
  let s := (add_text_box s MARGIN 6.5 (SLIDE_WIDTH - 2 * MARGIN) 0.5
    "\x22Trade ideas, not just single tokens\x22 — Pear Protocol Vision"
    14 GRAY_400 FONT_PRIMARY false true Align.center Anchor.top true).1
  s

/-- Slide 12 (The Ask / CTA): accent lines, logo, tagline, three checkmark
badges of width 2 at `badge_y = 4.4`, the ask card, thanks. -/
def slide12 : Slide :=
  let s := set_slide_background Slide.blank BLACK
  let s := { s with shapes :=
    s.shapes ++ [accentRect MARGIN 0.4 (SLIDE_WIDTH - 2 * MARGIN) 0.03] }
  let s := (add_text_box s MARGIN 1.2 (SLIDE_WIDTH - 2 * MARGIN) 1 "TAGO"
    100 WHITE FONT_PRIMARY false false Align.center Anchor.top true).1
  let s := (add_text_box s MARGIN 2.4 (SLIDE_WIDTH - 2 * MARGIN) 0.8 "LEAP"
    70 YELLOW FONT_PRIMARY false true Align.center Anchor.top true).1
  let s := (add_text_box s MARGIN 3.5 (SLIDE_WIDTH - 2 * MARGIN) 0.5
    "The future of narrative trading is here."
    22 WHITE FONT_PRIMARY false true Align.center Anchor.top true).1
  let s := (add_badge s 3.5 4.4 "PEAR ✓" YELLOW BLACK 2 true).1
  let s := (add_badge s 5.8 4.4 "LI.FI ✓" YELLOW BLACK 2 true).1
  let s := (add_badge s 8.1 4.4 "SALT ✓" YELLOW BLACK 2 true).1
  let s := (add_card s 3 5.2 7.333 1.3 true YELLOW true).1
  let s := (add_text_box s 3.2 5.4 7 0.4 "The Ask"
    16 YELLOW FONT_PRIMARY false false Align.left Anchor.top true).1
  let s := (add_text_box s 3.2 5.8 7 0.6
    "Award TAGO Leap the PEAR, LI.FI, and SALT bounties"
    18 WHITE FONT_PRIMARY false false Align.center Anchor.top true).1
  let s := (add_text_box s MARGIN 6.8 (SLIDE_WIDTH - 2 * MARGIN) 0.4
    "Thank you!"
    28 WHITE FONT_PRIMARY false false Align.center Anchor.top true).1
  let s := { s with shapes :=
    s.shapes ++ [accentRect MARGIN 7.1 (SLIDE_WIDTH - 2 * MARGIN) 0.03] }
  s

def OUTPUT_PATH : String :=
  "/Users/kevinapetrei/hyperstack/TAGO_Leap_Pitch_Deck.pptx"

/-- The document as fully constructed by `create_presentation` just before
`prs.save`. -/
def builtPresentation : Presentation :=
  { slideWidth := Inches SLIDE_WIDTH, slideHeight := Inches SLIDE_HEIGHT,
    slides := [slide1, slide2, slide3, slide4, slide5, slide6, slide7,
               slide8, slide9, slide10, slide11, slide12] }

/-- Observable effects of the tail of `create_presentation`: the save and
the stdout lines, in program order. -/
inductive Event where
  | save (path : String) (p : Presentation)
  | consoleOut (line : String)
deriving DecidableEq, Repr

/-- `create_presentation()`: returns the built document, the event trace of
its final section (save, then the confirmation prints), and its return
value (the output path). -/
def create_presentation : Presentation × List Event × String :=
  (builtPresentation,
   [Event.save OUTPUT_PATH builtPresentation,
    Event.consoleOut ("✓ Presentation saved to: " ++ OUTPUT_PATH),
    Event.consoleOut "  • 12 slides",
    Event.consoleOut "  • Inter font family",
    Event.consoleOut "  • Black/White/Yellow branding",
    Event.consoleOut "  • All 3 bounties covered"],
   OUTPUT_PATH)

/-- Inputs a process invocation could carry. The script reads none of them:
it has no flags, no environment lookups, no stdin. -/
structure ProgramInput where
  argv : List String
  env : List (String × String)
deriving DecidableEq, Repr

/-- The `if __name__ == "__main__"` entry point: ignores every input. -/
def runScript (_input : ProgramInput) : Presentation × List Event × String :=
  create_presentation

/-- `true` iff some run of some shape of the slide has exactly the given
text. -/
def slideHasRunText (s : Slide) (t : String) : Bool :=
  s.shapes.any (fun sh => sh.textFrame.paragraphs.any
    (fun p => p.runs.any (fun r => r.text == t)))

/-- C1: `create_presentation` produces a deck of exactly 12 slides in the
fixed source order (Title, Opportunity, Problem, Solution, PEAR, LI.FI,
SALT, Architecture, Demo Flow, Bounty Checklist, Why TAGO Leap, The Ask —
each identified below by text unique to it), and after the save it prints
the confirmation line with the output path followed by the bullet summary
stating the slide count. -/
theorem claim1_twelve_slides_fixed_order_and_summary :
    create_presentation.1.slides.length = 12 ∧
    create_presentation.1.slides =
      [slide1, slide2, slide3, slide4, slide5, slide6, slide7, slide8,
       slide9, slide10, slide11, slide12] ∧
    slideHasRunText slide1 "Hyperstack Hackathon 2025" = true ∧
    slideHasRunText slide2 "Opportunity" = true ∧
    slideHasRunText slide3 "Problem" = true ∧
    slideHasRunText slide4 "One platform. Three powerful integrations." = true ∧
    slideHasRunText slide5 "Narrative" = true ∧
    slideHasRunText slide6 "One-Click" = true ∧
    slideHasRunText slide7 "Policy-Controlled" = true ∧
    slideHasRunText slide8 "Architecture" = true ∧
    slideHasRunText slide9 "Demo" = true ∧
    slideHasRunText slide10 "Requirements" = true ∧
    slideHasRunText slide11 "TAGO Leap" = true ∧
    slideHasRunText slide12 "The Ask" = true ∧
    create_presentation.2.1 =
      [Event.save OUTPUT_PATH create_presentation.1,
       Event.consoleOut ("✓ Presentation saved to: " ++ OUTPUT_PATH),
       Event.consoleOut "  • 12 slides",
       Event.consoleOut "  • Inter font family",
       Event.consoleOut "  • Black/White/Yellow branding",
       Event.consoleOut "  • All 3 bounties covered"] ∧
    create_presentation.2.2 = OUTPUT_PATH :=
  ⟨rfl, rfl, by decide, by decide, by decide, by decide, by decide,
   by decide, by decide, by decide, by decide, by decide, by decide,
   by decide, rfl, rfl⟩

/-- C2: every slide of the built deck has a solid BLACK background fill,
and `set_slide_background` touches only the background (so the invariant
holds from the moment it is called, before any element is added). -/
theorem claim2_every_slide_background_is_black :
    builtPresentation.slides.all
      (fun s => s.background == Fill.solid BLACK) = true ∧
    ∀ (sl : Slide) (c : Rgb),
      (set_slide_background sl c).background = Fill.solid c ∧
      (set_slide_background sl c).shapes = sl.shapes :=
  ⟨by decide, fun _ _ => ⟨rfl, rfl⟩⟩

/-- C3: `add_styled_heading` creates exactly one text region with a single
paragraph whose run texts concatenate to pre ++ accent ++ suffix; every
italicized run is the YELLOW accent, every non-italicized run is WHITE and
carries the pre or suffix text; an empty part contributes no run; a
non-empty accent yields an italic YELLOW accent run. -/
theorem claim3_styled_heading_single_region_accent_only_italic
    (slide : Slide) (left top width height : ℚ)
    (pre accent suffix : String) (font_size : Nat) (align : Align) :
    (add_styled_heading slide left top width height pre accent suffix
      font_size align).1.shapes =
      slide.shapes ++ [(add_styled_heading slide left top width height pre
        accent suffix font_size align).2] ∧
    (add_styled_heading slide left top width height pre accent suffix
      font_size align).2.shapeType = ShapeType.textbox ∧
    (add_styled_heading slide left top width height pre accent suffix
      font_size align).2.textFrame.paragraphs.length = 1 ∧
    Paragraph.text ((add_styled_heading slide left top width height pre
      accent suffix font_size align).2.textFrame.paragraphs.headD
        Paragraph.empty) = pre ++ accent ++ suffix ∧
    ((add_styled_heading slide left top width height pre accent suffix
      font_size align).2.textFrame.paragraphs.headD
        Paragraph.empty).runs.length =
      (if pre = "" then 0 else 1) + (if accent = "" then 0 else 1)
        + (if suffix = "" then 0 else 1) ∧
    ((add_styled_heading slide left top width height pre accent suffix
      font_size align).2.textFrame.paragraphs.headD
        Paragraph.empty).runs.all (fun rn =>
      if rn.font.italic == some true
      then rn.font.color == some YELLOW && rn.text == accent
      else rn.font.color == some WHITE &&
        (rn.text == pre || rn.text == suffix)) = true ∧
    (accent ≠ "" →
      ((add_styled_heading slide left top width height pre accent suffix
        font_size align).2.textFrame.paragraphs.headD
          Paragraph.empty).runs.any (fun rn =>
        rn.text == accent && rn.font.italic == some true &&
          rn.font.color == some YELLOW) = true) := by
  refine ⟨rfl, rfl, rfl, ?_, ?_, ?_, ?_⟩ <;>
    by_cases hp : pre = "" <;> by_cases ha : accent = "" <;>
      by_cases hs : suffix = "" <;>
      simp [add_styled_heading, headingRun, Paragraph.text, hp, ha, hs]

/-- Witness for C3 at the slide-2 heading call. -/
theorem claim3_styled_heading_witness :
    Paragraph.text ((add_styled_heading Slide.blank 0.8 0.6 10 0.8 "The "
      "Opportunity" "" 48 Align.left).2.textFrame.paragraphs.headD
        Paragraph.empty) = "The " ++ "Opportunity" ++ "" ∧
    ((add_styled_heading Slide.blank 0.8 0.6 10 0.8 "The " "Opportunity" ""
      48 Align.left).2.textFrame.paragraphs.headD
        Paragraph.empty).runs.any (fun rn =>
      rn.text == "Opportunity" && rn.font.italic == some true &&
        rn.font.color == some YELLOW) = true := by
  have h := claim3_styled_heading_single_region_accent_only_italic
    Slide.blank 0.8 0.6 10 0.8 "The " "Opportunity" "" 48 Align.left
  exact ⟨h.2.2.2.1, h.2.2.2.2.2.2 (by decide)⟩

/-- C4: for each cosmetic `try/except: pass` site — the corner-radius
markup in `add_card` and the vertical anchoring in `add_text_box`,
`add_badge` and `add_flow_box` — a failure of the wrapped library
operation still yields the same shape with only the one cosmetic attribute
left unset, and the shape is still added to the slide, so slide
construction proceeds identically. -/
theorem claim4_cosmetic_failures_swallowed_shape_intact
    (slide : Slide) (left top width height : ℚ) (text : String)
    (font_size : Nat) (font_color : Rgb) (font_name : String)
    (bold italic : Bool) (align : Align) (va : Anchor)
    (has_border : Bool) (border_color : Rgb)
    (bg_color text_color : Rgb) (is_highlight : Bool) :
    ((add_card slide left top width height has_border border_color
        false).2 =
      { (add_card slide left top width height has_border border_color
          true).2 with cornerAdj := none } ∧
     (add_card slide left top width height has_border border_color
        false).1.shapes =
       slide.shapes ++ [(add_card slide left top width height has_border
         border_color false).2]) ∧
    ((add_text_box slide left top width height text font_size font_color
        font_name bold italic align va false).2 =
      { (add_text_box slide left top width height text font_size font_color
          font_name bold italic align va true).2 with
        textFrame :=
          { (add_text_box slide left top width height text font_size
              font_color font_name bold italic align va
              true).2.textFrame with anchor := none } } ∧
     (add_text_box slide left top width height text font_size font_color
        font_name bold italic align va false).1.shapes =
       slide.shapes ++ [(add_text_box slide left top width height text
         font_size font_color font_name bold italic align va false).2]) ∧
    ((add_badge slide left top text bg_color text_color width false).2 =
      { (add_badge slide left top text bg_color text_color width
          true).2 with
        textFrame :=
          { (add_badge slide left top text bg_color text_color width
              true).2.textFrame with anchor := none } } ∧
     (add_badge slide left top text bg_color text_color width
        false).1.shapes =
       slide.shapes ++ [(add_badge slide left top text bg_color text_color
         width false).2]) ∧
    ((add_flow_box slide left top width text is_highlight false).2 =
      { (add_flow_box slide left top width text is_highlight true).2 with
        textFrame :=
          { (add_flow_box slide left top width text is_highlight
              true).2.textFrame with anchor := none } } ∧
     (add_flow_box slide left top width text is_highlight false).1.shapes =
       slide.shapes ++ [(add_flow_box slide left top width text
         is_highlight false).2]) :=
  ⟨⟨rfl, rfl⟩, ⟨rfl, rfl⟩, ⟨rfl, rfl⟩, ⟨rfl, rfl⟩⟩

/-- C5: `add_badge` adds one rounded rectangle of the given width and fixed
0.4" height, solid `bg_color` fill, no outline, and a single bold centered
caption equal to `text` in `text_color`; with the source defaults and text
"PEAR" on a blank slide this is one 1.4"×0.4" shape with centered bold
black "PEAR" on yellow. -/
theorem claim5_badge_pill_geometry_and_caption
    (slide : Slide) (left top : ℚ) (text : String)
    (bg_color text_color : Rgb) (width : ℚ) :
    (add_badge slide left top text bg_color text_color width true).1.shapes
      = slide.shapes ++
        [(add_badge slide left top text bg_color text_color width true).2] ∧
    (add_badge slide left top text bg_color text_color width
      true).2.shapeType = ShapeType.roundedRectangle ∧
    (add_badge slide left top text bg_color text_color width true).2.left =
      Inches left ∧
    (add_badge slide left top text bg_color text_color width true).2.width =
      Inches width ∧
    (add_badge slide left top text bg_color text_color width true).2.height
      = Inches 0.4 ∧
    (add_badge slide left top text bg_color text_color width true).2.fill =
      Fill.solid bg_color ∧
    (add_badge slide left top text bg_color text_color width true).2.line =
      ⟨Fill.background, none⟩ ∧
    (add_badge slide left top text bg_color text_color width
      true).2.textFrame.paragraphs.map Paragraph.text = [text] ∧
    (add_badge slide left top text bg_color text_color width
      true).2.textFrame.paragraphs.map Paragraph.alignment =
      [some Align.center] ∧
    (add_badge slide left top text bg_color text_color width
      true).2.textFrame.paragraphs.map (fun p => p.font.bold) =
      [some true] ∧
    (add_badge slide left top text bg_color text_color width
      true).2.textFrame.paragraphs.map (fun p => p.font.color) =
      [some text_color] ∧
    (add_badge Slide.blank 4.8 5.8 "PEAR" YELLOW BLACK 1.4
      true).1.shapes.length = 1 ∧
    (add_badge Slide.blank 4.8 5.8 "PEAR" YELLOW BLACK 1.4 true).2.width =
      Inches 1.4 ∧
    (add_badge Slide.blank 4.8 5.8 "PEAR" YELLOW BLACK 1.4 true).2.height =
      Inches 0.4 ∧
    (add_badge Slide.blank 4.8 5.8 "PEAR" YELLOW BLACK 1.4 true).2.fill =
      Fill.solid YELLOW ∧
    (add_badge Slide.blank 4.8 5.8 "PEAR" YELLOW BLACK 1.4
      true).2.textFrame.paragraphs.map Paragraph.text = ["PEAR"] ∧
    (add_badge Slide.blank 4.8 5.8 "PEAR" YELLOW BLACK 1.4
      true).2.textFrame.paragraphs.map (fun p => p.font.color) =
      [some BLACK] :=
  ⟨rfl, rfl, rfl, rfl, rfl, rfl, rfl, rfl, rfl, rfl, rfl, rfl, rfl, rfl,
   rfl, rfl, rfl⟩

/-- C6: for a non-empty item list, `add_bullet_list` adds one text box
with exactly one paragraph per item in order, each paragraph's text being
the item prefixed with the "→  " marker glyph, all paragraphs sharing the
same font name, size, color and 12pt/6pt spacing. -/
theorem claim6_bullet_list_one_marked_paragraph_per_item
    (slide : Slide) (left top width height : ℚ) (items : List String)
    (font_size : Nat) (font_color : Rgb) (hne : items ≠ []) :
    (add_bullet_list slide left top width height items font_size
      font_color).1.shapes = slide.shapes ++
      [(add_bullet_list slide left top width height items font_size
        font_color).2] ∧
    (add_bullet_list slide left top width height items font_size
      font_color).2.shapeType = ShapeType.textbox ∧
    (add_bullet_list slide left top width height items font_size
      font_color).2.textFrame.paragraphs.length = items.length ∧
    (add_bullet_list slide left top width height items font_size
      font_color).2.textFrame.paragraphs.map Paragraph.text =
      items.map (fun it => "→  " ++ it) ∧
    (add_bullet_list slide left top width height items font_size
      font_color).2.textFrame.paragraphs.all (fun p =>
        p.font == ⟨some font_size, some font_color, some FONT_PRIMARY, none,
          none⟩ && p.spaceBefore == some 12 && p.spaceAfter == some 6) =
      true := by
  match items, hne with
  | a :: as, _ =>
    refine ⟨rfl, rfl, by simp [add_bullet_list], ?_, ?_⟩
    · simp only [add_bullet_list]
      rw [List.map_map]
      rfl
    simp only [add_bullet_list, List.all_eq_true]
    intro p hp
    simp only [List.map_cons, List.mem_cons, List.mem_map] at hp
    rcases hp with h | ⟨it, _, h⟩ <;> subst h <;> simp [bulletParagraph]

/-- Witness for C6 at the slide-2 pain-point list. -/
theorem claim6_bullet_list_witness :
    slide2Problems ≠ [] ∧
    (add_bullet_list Slide.blank 0.8 4.8 11 2.5 slide2Problems 17
      GRAY_200).2.textFrame.paragraphs.map Paragraph.text =
      slide2Problems.map (fun it => "→  " ++ it) ∧
    (add_bullet_list Slide.blank 0.8 4.8 11 2.5 slide2Problems 17
      GRAY_200).2.textFrame.paragraphs.length = slide2Problems.length := by
  have h := claim6_bullet_list_one_marked_paragraph_per_item Slide.blank
    0.8 4.8 11 2.5 slide2Problems 17 GRAY_200 (by decide)
  exact ⟨by decide, h.2.2.2.1, h.2.2.1⟩

/-- C7: `add_text_box` round-trips its arguments: the created element's
EMU position and size are exactly the `Inches` conversions of the given
inches, its text is the given text, and paragraph font size (points),
color, name, bold, italic and alignment equal the given arguments. -/
theorem claim7_text_box_attribute_roundtrip
    (slide : Slide) (left top width height : ℚ) (text : String)
    (font_size : Nat) (font_color : Rgb) (font_name : String)
    (bold italic : Bool) (align : Align) (va : Anchor) :
    (add_text_box slide left top width height text font_size font_color
      font_name bold italic align va true).2.left = Inches left ∧
    (add_text_box slide left top width height text font_size font_color
      font_name bold italic align va true).2.top = Inches top ∧
    (add_text_box slide left top width height text font_size font_color
      font_name bold italic align va true).2.width = Inches width ∧
    (add_text_box slide left top width height text font_size font_color
      font_name bold italic align va true).2.height = Inches height ∧
    (add_text_box slide left top width height text font_size font_color
      font_name bold italic align va true).2.textFrame.paragraphs.map
      Paragraph.text = [text] ∧
    (add_text_box slide left top width height text font_size font_color
      font_name bold italic align va true).2.textFrame.paragraphs.map
      (fun p => p.font.size) = [some font_size] ∧
    (add_text_box slide left top width height text font_size font_color
      font_name bold italic align va true).2.textFrame.paragraphs.map
      (fun p => p.font.color) = [some font_color] ∧
    (add_text_box slide left top width height text font_size font_color
      font_name bold italic align va true).2.textFrame.paragraphs.map
      (fun p => p.font.name) = [some font_name] ∧
    (add_text_box slide left top width height text font_size font_color
      font_name bold italic align va true).2.textFrame.paragraphs.map
      (fun p => p.font.bold) = [some bold] ∧
    (add_text_box slide left top width height text font_size font_color
      font_name bold italic align va true).2.textFrame.paragraphs.map
      (fun p => p.font.italic) = [some italic] ∧
    (add_text_box slide left top width height text font_size font_color
      font_name bold italic align va true).2.textFrame.paragraphs.map
      Paragraph.alignment = [some align] ∧
    (add_text_box slide left top width height text font_size font_color
      font_name bold italic align va true).1.shapes =
      slide.shapes ++ [(add_text_box slide left top width height text
        font_size font_color font_name bold italic align va true).2] :=
  ⟨rfl, rfl, rfl, rfl, rfl, rfl, rfl, rfl, rfl, rfl, rfl, rfl⟩

/-- C8: the build is deterministic — the script reads none of its
invocation inputs, so any two runs construct the same document and event
trace, and any (deterministic) serialization of the document gives
byte-identical output. -/
theorem claim8_two_runs_identical (i1 i2 : ProgramInput)
    (serialize : Presentation → List Nat) :
    runScript i1 = runScript i2 ∧
    serialize (runScript i1).1 = serialize (runScript i2).1 :=
  ⟨rfl, rfl⟩

/-- C9: `add_stat_box` adds exactly three elements — the yellow-bordered
card covering the given region, a 36pt YELLOW centered number box at
vertical offset `top + 0.2`, and a 14pt GRAY_300 centered label box at
`top + 0.7` — and returns the card. -/
theorem claim9_stat_box_card_number_label
    (slide : Slide) (left top width height : ℚ) (number label : String) :
    (add_stat_box slide left top width height number label).1.shapes =
      slide.shapes ++
        [(add_stat_box slide left top width height number label).2,
         (add_text_box Slide.blank left (top + 0.2) width 0.6 number 36
           YELLOW FONT_PRIMARY false false Align.center Anchor.top true).2,
         (add_text_box Slide.blank left (top + 0.7) width 0.4 label 14
           GRAY_300 FONT_PRIMARY false false Align.center Anchor.top
           true).2] ∧
    (add_stat_box slide left top width height number label).1.shapes.length
      = slide.shapes.length + 3 ∧
    (add_stat_box slide left top width height number label).2 =
      (add_card Slide.blank left top width height true YELLOW true).2 ∧
    (add_stat_box slide left top width height number label).2.shapeType =
      ShapeType.roundedRectangle ∧
    (add_stat_box slide left top width height number label).2.line =
      ⟨Fill.solid YELLOW, some 1⟩ ∧
    (add_stat_box slide left top width height number label).2.left =
      Inches left ∧
    (add_stat_box slide left top width height number label).2.top =
      Inches top ∧
    (add_stat_box slide left top width height number label).2.width =
      Inches width ∧
    (add_stat_box slide left top width height number label).2.height =
      Inches height ∧
    (add_text_box Slide.blank left (top + 0.2) width 0.6 number 36 YELLOW
      FONT_PRIMARY false false Align.center Anchor.top true).2.top =
      Inches (top + 0.2) ∧
    (add_text_box Slide.blank left (top + 0.2) width 0.6 number 36 YELLOW
      FONT_PRIMARY false false Align.center Anchor.top
      true).2.textFrame.paragraphs.map Paragraph.text = [number] ∧
    (add_text_box Slide.blank left (top + 0.2) width 0.6 number 36 YELLOW
      FONT_PRIMARY false false Align.center Anchor.top
      true).2.textFrame.paragraphs.map (fun p => p.font.size) = [some 36] ∧
    (add_text_box Slide.blank left (top + 0.2) width 0.6 number 36 YELLOW
      FONT_PRIMARY false false Align.center Anchor.top
      true).2.textFrame.paragraphs.map (fun p => p.font.color) =
      [some YELLOW] ∧
    (add_text_box Slide.blank left (top + 0.2) width 0.6 number 36 YELLOW
      FONT_PRIMARY false false Align.center Anchor.top
      true).2.textFrame.paragraphs.map Paragraph.alignment =
      [some Align.center] ∧
    (add_text_box Slide.blank left (top + 0.7) width 0.4 label 14 GRAY_300
      FONT_PRIMARY false false Align.center Anchor.top true).2.top =
      Inches (top + 0.7) ∧
    (add_text_box Slide.blank left (top + 0.7) width 0.4 label 14 GRAY_300
      FONT_PRIMARY false false Align.center Anchor.top
      true).2.textFrame.paragraphs.map Paragraph.text = [label] ∧
    (add_text_box Slide.blank left (top + 0.7) width 0.4 label 14 GRAY_300
      FONT_PRIMARY false false Align.center Anchor.top
      true).2.textFrame.paragraphs.map (fun p => p.font.size) = [some 14] ∧
    (add_text_box Slide.blank left (top + 0.7) width 0.4 label 14 GRAY_300
      FONT_PRIMARY false false Align.center Anchor.top
      true).2.textFrame.paragraphs.map (fun p => p.font.color) =
      [some GRAY_300] ∧
    (add_text_box Slide.blank left (top + 0.7) width 0.4 label 14 GRAY_300
      FONT_PRIMARY false false Align.center Anchor.top
      true).2.textFrame.paragraphs.map Paragraph.alignment =
      [some Align.center] := by
  refine ⟨?_, ?_, rfl, rfl, rfl, rfl, rfl, rfl, rfl, rfl, rfl, rfl, rfl,
    rfl, rfl, rfl, rfl, rfl, rfl⟩ <;>
    simp [add_stat_box, add_card, add_text_box]

/-- C10: the styling of an `add_flow_box` box is fully determined by the
`is_highlight` flag — yellow fill, black bold centered text, no outline
when highlighted; GRAY_700 fill, white non-bold centered text and a 1pt
yellow outline otherwise — and the height is always 0.6". -/
theorem claim10_flow_box_styling_determined_by_flag
    (slide : Slide) (left top width : ℚ) (text : String)
    (is_highlight : Bool) :
    (add_flow_box slide left top width text is_highlight true).2.height =
      Inches 0.6 ∧
    (add_flow_box slide left top width text is_highlight true).2.fill =
      Fill.solid (if is_highlight then YELLOW else GRAY_700) ∧
    (add_flow_box slide left top width text is_highlight true).2.line =
      (if is_highlight then (⟨Fill.background, none⟩ : LineFmt)
       else ⟨Fill.solid YELLOW, some 1⟩) ∧
    (add_flow_box slide left top width text is_highlight
      true).2.textFrame.paragraphs.map Paragraph.text = [text] ∧
    (add_flow_box slide left top width text is_highlight
      true).2.textFrame.paragraphs.map Paragraph.alignment =
      [some Align.center] ∧
    (add_flow_box slide left top width text is_highlight
      true).2.textFrame.paragraphs.map (fun p => p.font.bold) =
      [some is_highlight] ∧
    (add_flow_box slide left top width text is_highlight
      true).2.textFrame.paragraphs.map (fun p => p.font.color) =
      [some (if is_highlight then BLACK else WHITE)] := by
  cases is_highlight <;>
    exact ⟨rfl, rfl, rfl, rfl, rfl, rfl, rfl⟩
